import Mathlib

/-!
Shallow embedding of the block-production core of a validator client
(`eth2/block_producer/src/lib.rs`).

The producer's mutable state is the single field `last_processed_slot`
(a `Nat` here).  The four collaborators (slot clock, duties source,
beacon node, signer) and the externally supplied `canonical_root`
function are modelled as an `Env` record of response functions.  Each
operation returns its result, the new `last_processed_slot`, and a
trace (`List Call`) of the collaborator invocations it performed, in
order, so that claims of the form "X is never invoked" and "X happens
before Y" can be stated and proved.
-/

namespace Lighthouse

/-- Model of `Hash256` (32-byte hash values, abstracted to `Nat`). -/
abbrev Hash256 := Nat

/-- Model of `Hash256::zero()`. -/
def Hash256.zero : Hash256 := 0

/-- Model of BLS signature values, abstracted to `Nat`. -/
abbrev Signature := Nat

/-- Model of `types::BeaconBlock`: the `slot` and `signature` fields the
producer touches, plus `body` standing for all remaining block content. -/
structure BeaconBlock where
  slot : Nat
  body : Nat
  signature : Signature
deriving DecidableEq, Repr

/-- Model of `types::ProposalSignedData` (`{slot, shard, block_root}`). -/
structure ProposalSignedData where
  slot : Nat
  shard : Nat
  block_root : Hash256
deriving DecidableEq, Repr

/-- Model of `spec::ChainSpec`: the fields the producer reads. -/
structure ChainSpec where
  epoch_length : Nat
  empty_signature : Signature
  beacon_chain_shard_number : Nat
deriving DecidableEq, Repr

/-- Model of `BeaconNodeError` (opaque collaborator failure). -/
structure BeaconNodeError where
  code : Nat
deriving DecidableEq, Repr

/-- Model of `DutiesReaderError`. -/
inductive DutiesReaderError
  | UnknownEpoch
  | Poisoned
deriving DecidableEq, Repr

/-- Model of `PollOutcome` (the closed outcome tag set). -/
inductive PollOutcome
  | BlockProduced (slot : Nat)
  | SlashableBlockNotProduced (slot : Nat)
  | BlockProductionNotRequired (slot : Nat)
  | ProducerDutiesUnknown (slot : Nat)
  | SlotAlreadyProcessed (slot : Nat)
  | BeaconNodeUnableToProduceBlock (slot : Nat)
  | SignerRejection (slot : Nat)
deriving DecidableEq, Repr

/-- Model of `Error` (the closed fatal-error tag set). -/
inductive Error
  | SlotClockError
  | SlotUnknowable
  | EpochMapPoisoned
  | SlotClockPoisoned
  | EpochLengthIsZero
  | BeaconNodeError (e : BeaconNodeError)
deriving DecidableEq, Repr

/-- Result of reading the slot clock behind its `RwLock`:
`poisoned` is a poisoned lock, `clockError` an internal clock fault
(`present_slot()` returning `Err`), `unknown` an `Ok(None)` reading,
and `slot s` a successful reading of slot `s`. -/
inductive ClockRead
  | poisoned
  | clockError
  | unknown
  | slot (s : Nat)
deriving DecidableEq, Repr

/-- The slot delivered by a clock reading, when the reading succeeded. -/
def ClockRead.reading : ClockRead → Option Nat
  | .slot s => some s
  | _ => none

/-- Answer of the duties source `is_block_production_slot(epoch, slot)`:
`Ok(bool)` or one of the `DutiesReaderError`s. -/
inductive DutiesAnswer
  | ok (b : Bool)
  | err (e : DutiesReaderError)
deriving DecidableEq, Repr

/-- The collaborators' behaviour during one poll: what the slot clock
reads, how the duties source answers each `(epoch, slot)` query, what
the beacon node returns for produce and publish, how the signer answers
each 32-byte root, and the external `canonical_root` of a block. -/
structure Env where
  clock : ClockRead
  is_block_production_slot : Nat → Nat → DutiesAnswer
  produce_beacon_block : Nat → Except BeaconNodeError (Option BeaconBlock)
  bls_sign : Hash256 → Option Signature
  publish_beacon_block : BeaconBlock → Except BeaconNodeError Bool
  canonical_root : BeaconBlock → Hash256

/-- One collaborator invocation, as recorded in an operation's trace. -/
inductive Call
  | duties (epoch slot : Nat)
  | produceBlock (slot : Nat)
  | canonicalRoot (b : BeaconBlock)
  | signCall (root : Hash256)
  | publish (b : BeaconBlock)
deriving DecidableEq, Repr

/-- Model of the free function `hash_tree_root`, stubbed in the source to
return `Hash256::zero()` for every input. -/
def hash_tree_root {α : Type} (_input : α) : Hash256 :=
  Hash256.zero

namespace BlockProducer

/-- Model of `BlockProducer::new`: the initial `last_processed_slot`. -/
def new : Nat := 0

/-- Model of `BlockProducer::safe_to_produce` (stubbed to `true`). -/
def safe_to_produce (_block : BeaconBlock) : Bool :=
  true

/-- Model of `BlockProducer::store_produce` (stubbed: records nothing, so
the producer state is returned unchanged). -/
def store_produce (last_processed_slot : Nat) (_block : BeaconBlock) : Nat :=
  last_processed_slot

/-- The root handed to the signer in `sign_block`: the block is cloned,
its signature replaced by `spec.empty_signature`, its canonical root
taken, a `ProposalSignedData` built from it, and `hash_tree_root`
applied to that proposal. -/
def proposal_root (spec : ChainSpec) (env : Env) (block : BeaconBlock) : Hash256 :=
  hash_tree_root
    ({ slot := block.slot
       shard := spec.beacon_chain_shard_number
       block_root := env.canonical_root { block with signature := spec.empty_signature } :
      ProposalSignedData })

/-- Model of `BlockProducer::sign_block`: calls `store_produce`, computes
the proposal root over the signature-less clone, asks the signer; on
`None` returns `None`, otherwise the original block with the returned
signature attached.  The trace records the `canonical_root` and signer
calls. -/
def sign_block (spec : ChainSpec) (env : Env) (last_processed_slot : Nat)
    (block : BeaconBlock) : Option BeaconBlock × Nat × List Call :=
  match env.bls_sign (proposal_root spec env block) with
  | none =>
      (none, store_produce last_processed_slot block,
        [Call.canonicalRoot { block with signature := spec.empty_signature },
         Call.signCall (proposal_root spec env block)])
  | some signature =>
      (some { block with signature := signature },
        store_produce last_processed_slot block,
        [Call.canonicalRoot { block with signature := spec.empty_signature },
         Call.signCall (proposal_root spec env block)])

/-- Model of `BlockProducer::produce_block`. -/
def produce_block (spec : ChainSpec) (env : Env) (last_processed_slot : Nat)
    (slot : Nat) : Except Error PollOutcome × Nat × List Call :=
  match env.produce_beacon_block slot with
  | .error e => (.error (.BeaconNodeError e), last_processed_slot, [Call.produceBlock slot])
  | .ok none =>
      (.ok (.BeaconNodeUnableToProduceBlock slot), last_processed_slot,
        [Call.produceBlock slot])
  | .ok (some block) =>
      if safe_to_produce block then
        match sign_block spec env last_processed_slot block with
        | (none, lps2, signCalls) =>
            (.ok (.SignerRejection slot), lps2, Call.produceBlock slot :: signCalls)
        | (some signed_block, lps2, signCalls) =>
            match env.publish_beacon_block signed_block with
            | .error e =>
                (.error (.BeaconNodeError e), lps2,
                  Call.produceBlock slot :: signCalls ++ [Call.publish signed_block])
            | .ok _ =>
                (.ok (.BlockProduced slot), lps2,
                  Call.produceBlock slot :: signCalls ++ [Call.publish signed_block])
      else
        (.ok (.SlashableBlockNotProduced slot), last_processed_slot,
          [Call.produceBlock slot])

/-- Model of `u64::checked_div`: `None` exactly when the divisor is zero. -/
def checked_div (a b : Nat) : Option Nat :=
  if b = 0 then none else some (a / b)

/-- Model of `BlockProducer::poll`. -/
def poll (spec : ChainSpec) (env : Env) (last_processed_slot : Nat) :
    Except Error PollOutcome × Nat × List Call :=
  match env.clock with
  | .poisoned => (.error .SlotClockPoisoned, last_processed_slot, [])
  | .clockError => (.error .SlotClockError, last_processed_slot, [])
  | .unknown => (.error .SlotUnknowable, last_processed_slot, [])
  | .slot slot =>
    match checked_div slot spec.epoch_length with
    | none => (.error .EpochLengthIsZero, last_processed_slot, [])
    | some epoch =>
      if slot > last_processed_slot then
        match env.is_block_production_slot epoch slot with
        | .err .UnknownEpoch =>
            (.ok (.ProducerDutiesUnknown slot), last_processed_slot,
              [Call.duties epoch slot])
        | .err .Poisoned =>
            (.error .EpochMapPoisoned, last_processed_slot, [Call.duties epoch slot])
        | .ok is_slot =>
          if is_slot then
            ((produce_block spec env slot slot).1,
              (produce_block spec env slot slot).2.1,
              Call.duties epoch slot :: (produce_block spec env slot slot).2.2)
          else
            (.ok (.BlockProductionNotRequired slot), last_processed_slot,
              [Call.duties epoch slot])
      else
        (.ok (.SlotAlreadyProcessed slot), last_processed_slot, [])

/-- One poll viewed as a transition on `last_processed_slot` alone. -/
def pollLps (spec : ChainSpec) (lps : Nat) (env : Env) : Nat :=
  (poll spec env lps).2.1

/-- The producer state after a sequence of polls, starting from `new`. -/
def lpsAfter (spec : ChainSpec) (envs : List Env) : Nat :=
  envs.foldl (pollLps spec) new

end BlockProducer

/-- The successful slot readings of a sequence of polls, in order. -/
def readings (envs : List Env) : List Nat :=
  envs.filterMap fun e => e.clock.reading

/-! Concrete fixtures, mirroring the scenario of the `polling()` test in the
source: `epoch_length = 64`, duties known for epoch 1 with production due at
slot 100, duties unknown for later epochs. -/

/-- Fixture chain configuration (`epoch_length = 64`). -/
def specEx : ChainSpec :=
  { epoch_length := 64, empty_signature := 0, beacon_chain_shard_number := 9 }

/-- Fixture candidate block returned by the beacon node. -/
def blockEx : BeaconBlock :=
  { slot := 100, body := 7, signature := 3 }

/-- Fixture duties source: production due exactly at `(epoch 1, slot 100)`,
epochs after 1 unknown. -/
def dutiesEx : Nat → Nat → DutiesAnswer := fun epoch slot =>
  if epoch = 1 ∧ slot = 100 then .ok true
  else if epoch ≤ 1 then .ok false
  else .err .UnknownEpoch

/-- Fixture environment with the clock reading slot `s` and cooperative
collaborators. -/
def envAt (s : Nat) : Env :=
  { clock := .slot s
    is_block_production_slot := dutiesEx
    produce_beacon_block := fun _ => .ok (some blockEx)
    bls_sign := fun _ => some 5
    publish_beacon_block := fun _ => .ok true
    canonical_root := fun b => b.body + 2 * b.slot + 3 * b.signature }

/-- Fixture environment whose clock lock is poisoned. -/
def envClockPoisoned : Env :=
  { envAt 100 with clock := .poisoned }

/-- Fixture environment whose duties source lock is poisoned. -/
def envDutiesPoisoned : Env :=
  { envAt 100 with is_block_production_slot := fun _ _ => .err .Poisoned }

/-- Fixture environment in which the beacon node cannot produce a block. -/
def envNoBlock : Env :=
  { envAt 100 with produce_beacon_block := fun _ => .ok none }

/-- Fixture environment in which the signer declines to sign. -/
def envSignerDeclines : Env :=
  { envAt 100 with bls_sign := fun _ => none }

/-- End-to-end sanity check: one slot before the production slot, polling
reports that production is not required. -/
example :
    BlockProducer.poll specEx (envAt 99) BlockProducer.new =
      (.ok (.BlockProductionNotRequired 99), 0, [Call.duties 1 99]) := by
  rfl

/-- End-to-end sanity check: on the production slot a block is produced,
with the collaborators invoked in pipeline order, and the state advanced. -/
example :
    BlockProducer.poll specEx (envAt 100) BlockProducer.new =
      (.ok (.BlockProduced 100), 100,
        [Call.duties 1 100, Call.produceBlock 100,
         Call.canonicalRoot { blockEx with signature := 0 },
         Call.signCall Hash256.zero,
         Call.publish { blockEx with signature := 5 }]) := by
  rfl

/-- End-to-end sanity check: polling the production slot again is a no-op. -/
example :
    BlockProducer.poll specEx (envAt 100) 100 =
      (.ok (.SlotAlreadyProcessed 100), 100, []) := by
  rfl

/-- End-to-end sanity check: the slot after the production slot does not
require production. -/
example :
    BlockProducer.poll specEx (envAt 101) 100 =
      (.ok (.BlockProductionNotRequired 101), 100, [Call.duties 1 101]) := by
  rfl

/-- End-to-end sanity check: in an epoch without known duties the poll
reports the duties as unknown. -/
example :
    BlockProducer.poll specEx (envAt 128) 101 =
      (.ok (.ProducerDutiesUnknown 128), 101, [Call.duties 2 128]) := by
  rfl

/-! Shared helper lemmas about `produce_block` and `poll`. -/

namespace BlockProducer

/-- `sign_block` never changes `last_processed_slot` (its only state
change goes through the stubbed `store_produce`). -/
theorem sign_block_lps_eq (spec : ChainSpec) (env : Env) (lps : Nat)
    (block : BeaconBlock) :
    (sign_block spec env lps block).2.1 = lps := by
  unfold sign_block
  cases env.bls_sign (proposal_root spec env block) <;> rfl

/-- `produce_block` never changes `last_processed_slot`. -/
theorem produce_block_lps_eq (spec : ChainSpec) (env : Env) (lps slot : Nat) :
    (produce_block spec env lps slot).2.1 = lps := by
  rcases hp : env.produce_beacon_block slot with e | ob
  · simp [produce_block, hp]
  · rcases ob with _ | block
    · simp [produce_block, hp]
    · rcases hb : env.bls_sign (proposal_root spec env block) with _ | sig
      · simp [produce_block, hp, safe_to_produce, sign_block, hb, store_produce]
      · rcases hpub : env.publish_beacon_block { block with signature := sig }
          with e | f <;>
          simp [produce_block, hp, safe_to_produce, sign_block, hb,
            store_produce, hpub]

/-- Every `BlockProduced` outcome of `produce_block` carries the slot it
was invoked with. -/
theorem produce_block_produced_slot (spec : ChainSpec) (env : Env)
    (lps slot s : Nat)
    (h : (produce_block spec env lps slot).1 = .ok (.BlockProduced s)) :
    s = slot := by
  rcases hp : env.produce_beacon_block slot with e | ob
  · simp [produce_block, hp] at h
  · rcases ob with _ | block
    · simp [produce_block, hp] at h
    · rcases hb : env.bls_sign (proposal_root spec env block) with _ | sig
      · simp [produce_block, hp, safe_to_produce, sign_block, hb] at h
      · rcases hpub : env.publish_beacon_block { block with signature := sig }
          with e | f <;>
          simp [produce_block, hp, safe_to_produce, sign_block, hb, hpub] at h
        omega

/-- If a poll reports a produced block at slot `s`, then the clock read
`s`, the slot was new, and `last_processed_slot` was advanced to `s`. -/
theorem poll_produced (spec : ChainSpec) (env : Env) (lps s : Nat)
    (h : (poll spec env lps).1 = .ok (.BlockProduced s)) :
    env.clock = .slot s ∧ lps < s ∧ (poll spec env lps).2.1 = s := by
  rcases hc : env.clock with _ | _ | _ | s'
  · simp [poll, hc] at h
  · simp [poll, hc] at h
  · simp [poll, hc] at h
  · rcases hd : checked_div s' spec.epoch_length with _ | epoch
    · simp [poll, hc, hd] at h
    · by_cases hgt : s' > lps
      · rcases ha : env.is_block_production_slot epoch s' with b | e
        · cases b
          · simp [poll, hc, hd, hgt, ha] at h
          · have hs : s = s' :=
              produce_block_produced_slot spec env s' s' s
                (by simpa [poll, hc, hd, hgt, ha] using h)
            subst hs
            refine ⟨rfl, hgt, ?_⟩
            simp [poll, hc, hd, hgt, ha, produce_block_lps_eq]
        · cases e <;> simp [poll, hc, hd, hgt, ha] at h
      · simp [poll, hc, hd, hgt] at h

/-- A poll never decreases `last_processed_slot`. -/
theorem poll_step_mono (spec : ChainSpec) (env : Env) (lps : Nat) :
    lps ≤ (poll spec env lps).2.1 := by
  rcases hc : env.clock with _ | _ | _ | s
  · simp [poll, hc]
  · simp [poll, hc]
  · simp [poll, hc]
  · rcases hd : checked_div s spec.epoch_length with _ | epoch
    · simp [poll, hc, hd]
    · by_cases hgt : s > lps
      · rcases ha : env.is_block_production_slot epoch s with b | e
        · cases b
          · simp [poll, hc, hd, hgt, ha]
          · simp [poll, hc, hd, hgt, ha, produce_block_lps_eq]
            omega
        · cases e <;> simp [poll, hc, hd, hgt, ha]
      · simp [poll, hc, hd, hgt]

/-- After a poll whose clock reading was `s`, `last_processed_slot` is at
most `max lps s`. -/
theorem poll_step_le (spec : ChainSpec) (env : Env) (lps s : Nat)
    (hclock : env.clock = .slot s) :
    (poll spec env lps).2.1 ≤ max lps s := by
  rcases hd : checked_div s spec.epoch_length with _ | epoch
  · simp [poll, hclock, hd]
  · by_cases hgt : s > lps
    · rcases ha : env.is_block_production_slot epoch s with b | e
      · cases b
        · simp [poll, hclock, hd, hgt, ha]
        · simp [poll, hclock, hd, hgt, ha, produce_block_lps_eq]
      · cases e <;> simp [poll, hclock, hd, hgt, ha]
    · simp [poll, hclock, hd, hgt]

/-- A poll in which the clock does not deliver a slot leaves
`last_processed_slot` unchanged. -/
theorem poll_step_noread (spec : ChainSpec) (env : Env) (lps : Nat)
    (hclock : ∀ s, env.clock ≠ .slot s) :
    (poll spec env lps).2.1 = lps := by
  rcases hc : env.clock with _ | _ | _ | s
  · simp [poll, hc]
  · simp [poll, hc]
  · simp [poll, hc]
  · exact absurd hc (hclock s)

/-- A poll whose clock reading is unsuccessful leaves the state unchanged
(formulated on `pollLps`). -/
theorem pollLps_reading_none (spec : ChainSpec) (env : Env) (lps : Nat)
    (h : env.clock.reading = none) : pollLps spec lps env = lps := by
  apply poll_step_noread
  intro s hc
  rw [hc] at h
  simp [ClockRead.reading] at h

/-- Step bounds for `pollLps` under a successful clock reading. -/
theorem pollLps_reading_some (spec : ChainSpec) (env : Env) (lps r : Nat)
    (h : env.clock.reading = some r) :
    lps ≤ pollLps spec lps env ∧ pollLps spec lps env ≤ max lps r := by
  have hc : env.clock = .slot r := by
    rcases hcc : env.clock with _ | _ | _ | s <;> rw [hcc] at h <;>
      simp [ClockRead.reading] at h
    rw [h]
  exact ⟨poll_step_mono spec env lps, poll_step_le spec env lps r hc⟩

/-- A sequence of polls in which the clock never delivers a slot leaves
the state unchanged. -/
theorem foldl_pollLps_noread (spec : ChainSpec) :
    ∀ (envs : List Env) (lps : Nat), readings envs = [] →
      envs.foldl (pollLps spec) lps = lps := by
  intro envs
  induction envs with
  | nil => intro lps _; rfl
  | cons e es ih =>
    intro lps h
    rcases hr : e.clock.reading with _ | r
    · rw [List.foldl_cons, pollLps_reading_none spec e lps hr]
      apply ih
      simpa [readings, List.filterMap_cons, hr] using h
    · simp [readings, List.filterMap_cons, hr] at h

/-- The final state of a sequence of polls whose readings, prefixed by the
initial state, are non-decreasing is bounded by the last reading. -/
theorem foldl_pollLps_le_getLast (spec : ChainSpec) :
    ∀ (envs : List Env) (lps : Nat),
      List.Chain' (· ≤ ·) (lps :: readings envs) →
      ∀ s, (readings envs).getLast? = some s →
        envs.foldl (pollLps spec) lps ≤ s := by
  intro envs
  induction envs with
  | nil => intro lps _ s hs; simp [readings] at hs
  | cons e es ih =>
    intro lps hchain s hs
    rcases hr : e.clock.reading with _ | r
    · have hre : readings (e :: es) = readings es := by
        simp [readings, List.filterMap_cons, hr]
      rw [hre] at hchain hs
      rw [List.foldl_cons, pollLps_reading_none spec e lps hr]
      exact ih lps hchain s hs
    · have hre : readings (e :: es) = r :: readings es := by
        simp [readings, List.filterMap_cons, hr]
      rw [hre] at hchain hs
      have hlr : lps ≤ r := (List.chain'_cons.mp hchain).1
      have hchain2 : List.Chain' (· ≤ ·) (r :: readings es) :=
        (List.chain'_cons.mp hchain).2
      have hstep := pollLps_reading_some spec e lps r hr
      have hle : pollLps spec lps e ≤ r := le_trans hstep.2 (max_le hlr le_rfl)
      rcases hes : readings es with _ | ⟨r2, rs⟩
      · rw [hes] at hs
        simp at hs
        rw [List.foldl_cons, foldl_pollLps_noread spec es _ hes]
        omega
      · rw [List.foldl_cons]
        have hrr2 : r ≤ r2 := by
          rw [hes] at hchain2
          exact (List.chain'_cons.mp hchain2).1
        apply ih (pollLps spec lps e) _ s _
        · apply List.chain'_cons'.mpr
          refine ⟨?_, ?_⟩
          · intro y hy
            rw [hes] at hy
            simp at hy
            omega
          · exact (List.chain'_cons'.mp hchain2).2
        · rw [hes] at hs ⊢
          simpa [List.getLast?_cons_cons] using hs

/-- On a new slot whose duties answer is `true`, a poll behaves as
`produce_block` run after `last_processed_slot` has been set to the slot,
with the duties call prepended to the trace. -/
theorem poll_new_required (spec : ChainSpec) (env : Env) (lps s : Nat)
    (hclock : env.clock = .slot s) (hlen : spec.epoch_length ≠ 0)
    (hgt : lps < s)
    (hduty : env.is_block_production_slot (s / spec.epoch_length) s = .ok true) :
    poll spec env lps =
      ((produce_block spec env s s).1, (produce_block spec env s s).2.1,
        Call.duties (s / spec.epoch_length) s :: (produce_block spec env s s).2.2) := by
  simp [poll, hclock, checked_div, hlen, hgt, hduty]

end BlockProducer

/-! Claim theorems. -/

/-- C6: in the reference implementation the safety predicate
`safe_to_produce` returns `true` for every candidate block, and the
recording step `store_produce` leaves the producer state unchanged
(records nothing). -/
theorem C6_stubbed_safety_gate (lps : Nat) (block : BeaconBlock) :
    BlockProducer.safe_to_produce block = true ∧
    BlockProducer.store_produce lps block = lps :=
  ⟨rfl, rfl⟩

/-- C9: every root handed to the signer inside `sign_block` is the zero
hash, because `hash_tree_root` is stubbed to return `Hash256.zero`; in
particular the signed root is independent of the block's content, slot
and shard configuration. -/
theorem C9_zero_signing_root (spec spec2 : ChainSpec) (env env2 : Env)
    (lps : Nat) (block block2 : BeaconBlock) (root : Hash256)
    (hmem : Call.signCall root ∈
      (BlockProducer.sign_block spec env lps block).2.2) :
    root = Hash256.zero ∧
    BlockProducer.proposal_root spec env block = Hash256.zero ∧
    BlockProducer.proposal_root spec env block =
      BlockProducer.proposal_root spec2 env2 block2 := by
  refine ⟨?_, rfl, rfl⟩
  unfold BlockProducer.sign_block at hmem
  rcases hb : env.bls_sign (BlockProducer.proposal_root spec env block)
      with _ | sig <;>
    rw [hb] at hmem <;>
    simpa [BlockProducer.proposal_root, hash_tree_root, Hash256.zero] using hmem

/-- C9 witness: a concrete signer call inside `sign_block` receives the
zero hash, and the proposal root of two different blocks under different
configurations coincides. -/
theorem C9_zero_signing_root_witness :
    Hash256.zero = Hash256.zero ∧
    BlockProducer.proposal_root specEx (envAt 100) blockEx = Hash256.zero ∧
    BlockProducer.proposal_root specEx (envAt 100) blockEx =
      BlockProducer.proposal_root { specEx with beacon_chain_shard_number := 2 }
        (envAt 99) { blockEx with body := 1, slot := 3 } :=
  C9_zero_signing_root specEx { specEx with beacon_chain_shard_number := 2 }
    (envAt 100) (envAt 99) 0 blockEx { blockEx with body := 1, slot := 3 }
    Hash256.zero (by decide)

/-- C7: when the signer returns a signature, `sign_block` returns the
original candidate with only its signature field replaced by the returned
signature, and the canonical root is computed over the signature-cleared
clone of the candidate, not over the returned block. -/
theorem C7_sign_attaches_signature (spec : ChainSpec) (env : Env) (lps : Nat)
    (block : BeaconBlock) (sig : Signature)
    (hsig : env.bls_sign (BlockProducer.proposal_root spec env block) = some sig) :
    BlockProducer.sign_block spec env lps block =
      (some { block with signature := sig }, lps,
        [Call.canonicalRoot { block with signature := spec.empty_signature },
         Call.signCall (BlockProducer.proposal_root spec env block)]) ∧
    (BeaconBlock.mk block.slot block.body sig).slot = block.slot ∧
    (BeaconBlock.mk block.slot block.body sig).body = block.body ∧
    (BeaconBlock.mk block.slot block.body sig).signature = sig := by
  unfold BlockProducer.sign_block
  rw [hsig]
  exact ⟨rfl, rfl, rfl, rfl⟩

/-- C7 witness: a concrete successful signing returns the candidate with
the signature attached, leaving slot and body unchanged. -/
theorem C7_sign_attaches_signature_witness :
    BlockProducer.sign_block specEx (envAt 100) 0 blockEx =
      (some { blockEx with signature := 5 }, 0,
        [Call.canonicalRoot { blockEx with signature := 0 },
         Call.signCall (BlockProducer.proposal_root specEx (envAt 100) blockEx)]) ∧
    (BeaconBlock.mk blockEx.slot blockEx.body 5).slot = blockEx.slot ∧
    (BeaconBlock.mk blockEx.slot blockEx.body 5).body = blockEx.body ∧
    (BeaconBlock.mk blockEx.slot blockEx.body 5).signature = 5 :=
  C7_sign_attaches_signature specEx (envAt 100) 0 blockEx 5 rfl

/-- C4: under a nonzero epoch length (a standing data-model invariant of
the configuration), a poll whose clock reading is at most
`last_processed_slot` returns `SlotAlreadyProcessed` carrying that slot,
invokes no collaborator, and leaves the state unchanged; in particular,
right after a poll that produced a block at slot `s`, polling again with
the clock still at `s` returns `SlotAlreadyProcessed s` with an empty
trace. -/
theorem C4_idempotent_slot_already_processed (spec : ChainSpec)
    (env env2 : Env) (lps s : Nat) (hclock : env.clock = .slot s)
    (hlen : spec.epoch_length ≠ 0) :
    (s ≤ lps →
      BlockProducer.poll spec env lps =
        (.ok (.SlotAlreadyProcessed s), lps, [])) ∧
    ((BlockProducer.poll spec env2 lps).1 = .ok (.BlockProduced s) →
      BlockProducer.poll spec env (BlockProducer.poll spec env2 lps).2.1 =
        (.ok (.SlotAlreadyProcessed s), s, [])) := by
  constructor
  · intro hle
    simp [BlockProducer.poll, hclock, BlockProducer.checked_div, hlen,
      Nat.not_lt.mpr hle]
  · intro hprod
    rw [(BlockProducer.poll_produced spec env2 lps s hprod).2.2]
    simp [BlockProducer.poll, hclock, BlockProducer.checked_div, hlen]

/-- C4 witness: polling at slot 100 with the state already at 100 is a
no-op, and a second poll right after a successful production at slot 100
returns `SlotAlreadyProcessed` with an empty trace. -/
theorem C4_idempotent_slot_already_processed_witness :
    BlockProducer.poll specEx (envAt 100) 100 =
      (.ok (.SlotAlreadyProcessed 100), 100, []) ∧
    BlockProducer.poll specEx (envAt 100)
        (BlockProducer.poll specEx (envAt 100) BlockProducer.new).2.1 =
      (.ok (.SlotAlreadyProcessed 100), 100, []) :=
  ⟨(C4_idempotent_slot_already_processed specEx (envAt 100) (envAt 100) 100 100
      rfl (by decide)).1 (by decide),
   (C4_idempotent_slot_already_processed specEx (envAt 100) (envAt 100)
      BlockProducer.new 100 rfl (by decide)).2 rfl⟩

/-- C5: under a nonzero epoch length, a poll of a new slot whose duties
query fails with `UnknownEpoch` returns `ProducerDutiesUnknown`, calls
only the duties source (never the beacon node), and leaves the state
unchanged; likewise a `false` duties answer yields
`BlockProductionNotRequired` without advancing the state. -/
theorem C5_duties_unknown_gate (spec : ChainSpec) (env : Env) (lps s : Nat)
    (hclock : env.clock = .slot s) (hlen : spec.epoch_length ≠ 0)
    (hgt : lps < s) :
    (env.is_block_production_slot (s / spec.epoch_length) s =
        .err .UnknownEpoch →
      BlockProducer.poll spec env lps =
        (.ok (.ProducerDutiesUnknown s), lps,
          [Call.duties (s / spec.epoch_length) s])) ∧
    (env.is_block_production_slot (s / spec.epoch_length) s = .ok false →
      BlockProducer.poll spec env lps =
        (.ok (.BlockProductionNotRequired s), lps,
          [Call.duties (s / spec.epoch_length) s])) := by
  constructor <;> intro ha <;>
    simp [BlockProducer.poll, hclock, BlockProducer.checked_div, hlen, hgt, ha]

/-- C5 witness: at slot 128 (an epoch with unknown duties) the poll
reports duties unknown without touching the beacon node, and at slot 99
(duties known, answer `false`) it reports production not required; the
state is unchanged in both cases. -/
theorem C5_duties_unknown_gate_witness :
    BlockProducer.poll specEx (envAt 128) 101 =
      (.ok (.ProducerDutiesUnknown 128), 101, [Call.duties 2 128]) ∧
    BlockProducer.poll specEx (envAt 99) 0 =
      (.ok (.BlockProductionNotRequired 99), 0, [Call.duties 1 99]) :=
  ⟨(C5_duties_unknown_gate specEx (envAt 128) 101 128 rfl (by decide)
      (by decide)).1 (by decide),
   (C5_duties_unknown_gate specEx (envAt 99) 0 99 rfl (by decide)
      (by decide)).2 (by decide)⟩

/-- C8: a poisoned clock lock makes the poll return the fatal
`SlotClockPoisoned` error with no collaborator invoked; a poisoned duties
source makes it return the fatal `EpochMapPoisoned` error; and the two
poisoning conditions are distinct errors. -/
theorem C8_poisoning_propagation (spec : ChainSpec) (env : Env) (lps s : Nat) :
    (env.clock = .poisoned →
      BlockProducer.poll spec env lps = (.error .SlotClockPoisoned, lps, [])) ∧
    (env.clock = .slot s → spec.epoch_length ≠ 0 → lps < s →
      env.is_block_production_slot (s / spec.epoch_length) s = .err .Poisoned →
      BlockProducer.poll spec env lps =
        (.error .EpochMapPoisoned, lps, [Call.duties (s / spec.epoch_length) s])) ∧
    Error.SlotClockPoisoned ≠ Error.EpochMapPoisoned := by
  refine ⟨?_, ?_, by decide⟩
  · intro hc
    simp [BlockProducer.poll, hc]
  · intro hc hlen hgt ha
    simp [BlockProducer.poll, hc, BlockProducer.checked_div, hlen, hgt, ha]

/-- C8 witness: a concrete poisoned clock makes the poll fail with the
clock-poisoned error and an empty trace, and a concrete poisoned duties
source makes it fail with the duties-poisoned error. -/
theorem C8_poisoning_propagation_witness :
    BlockProducer.poll specEx envClockPoisoned 0 =
      (.error .SlotClockPoisoned, 0, []) ∧
    BlockProducer.poll specEx envDutiesPoisoned 0 =
      (.error .EpochMapPoisoned, 0, [Call.duties 1 100]) ∧
    Error.SlotClockPoisoned ≠ Error.EpochMapPoisoned :=
  ⟨(C8_poisoning_propagation specEx envClockPoisoned 0 100).1 rfl,
   (C8_poisoning_propagation specEx envDutiesPoisoned 0 100).2.1 rfl
     (by decide) (by decide) rfl,
   (C8_poisoning_propagation specEx envClockPoisoned 0 100).2.2⟩

/-- C10: a new producer starts with `last_processed_slot = 0`; under a
nonzero epoch length, any poll whose clock reads slot 0 returns
`SlotAlreadyProcessed 0` with no collaborator invoked (the new-slot guard
is strict); and no poll can ever return `BlockProduced 0`. -/
theorem C10_slot_zero_never_produced (spec : ChainSpec) (env : Env)
    (lps : Nat) :
    BlockProducer.new = 0 ∧
    (env.clock = .slot 0 → spec.epoch_length ≠ 0 →
      BlockProducer.poll spec env lps =
        (.ok (.SlotAlreadyProcessed 0), lps, [])) ∧
    (BlockProducer.poll spec env lps).1 ≠ .ok (.BlockProduced 0) := by
  refine ⟨rfl, ?_, ?_⟩
  · intro hc hlen
    simp [BlockProducer.poll, hc, BlockProducer.checked_div, hlen]
  · intro h
    have := (BlockProducer.poll_produced spec env lps 0 h).2.1
    omega

/-- C10 witness: a producer polled at slot 0, with duties demanding
production at slot 0, still reports the slot as already processed. -/
theorem C10_slot_zero_never_produced_witness :
    BlockProducer.new = 0 ∧
    BlockProducer.poll specEx
        { envAt 0 with is_block_production_slot := fun _ _ => .ok true }
        BlockProducer.new =
      (.ok (.SlotAlreadyProcessed 0), BlockProducer.new, []) ∧
    (BlockProducer.poll specEx
        { envAt 0 with is_block_production_slot := fun _ _ => .ok true }
        BlockProducer.new).1 ≠ .ok (.BlockProduced 0) :=
  ⟨(C10_slot_zero_never_produced specEx
      { envAt 0 with is_block_production_slot := fun _ _ => .ok true }
      BlockProducer.new).1,
   (C10_slot_zero_never_produced specEx
      { envAt 0 with is_block_production_slot := fun _ _ => .ok true }
      BlockProducer.new).2.1 rfl (by decide),
   (C10_slot_zero_never_produced specEx
      { envAt 0 with is_block_production_slot := fun _ _ => .ok true }
      BlockProducer.new).2.2⟩

/-- C3: on a new slot whose duties answer is `true`, the poll advances
`last_processed_slot` to that slot whatever the production attempt does
(so failed attempts still mark the slot handled), the poll's result is
that of `produce_block` run with the state already advanced, and a later
poll with the clock still at that slot reports it as already
processed. -/
theorem C3_lps_advanced_before_production (spec : ChainSpec) (env env2 : Env)
    (lps s : Nat) (hclock : env.clock = .slot s)
    (hlen : spec.epoch_length ≠ 0) (hgt : lps < s)
    (hduty : env.is_block_production_slot (s / spec.epoch_length) s = .ok true) :
    (BlockProducer.poll spec env lps).2.1 = s ∧
    (BlockProducer.poll spec env lps).1 =
      (BlockProducer.produce_block spec env s s).1 ∧
    (env2.clock = .slot s →
      (BlockProducer.poll spec env2 s).1 = .ok (.SlotAlreadyProcessed s)) := by
  have hpoll := BlockProducer.poll_new_required spec env lps s hclock hlen hgt hduty
  refine ⟨?_, ?_, ?_⟩
  · rw [hpoll]
    exact BlockProducer.produce_block_lps_eq spec env s s
  · rw [hpoll]
  · intro hc2
    simp [BlockProducer.poll, hc2, BlockProducer.checked_div, hlen]

/-- C3 witness: at slot 100 with duties requiring production but the
beacon node unable to produce, the poll still advances the state to 100,
its result is that of the production attempt, and a repeat poll at slot
100 reports the slot already processed. -/
theorem C3_lps_advanced_before_production_witness :
    (BlockProducer.poll specEx envNoBlock 0).2.1 = 100 ∧
    (BlockProducer.poll specEx envNoBlock 0).1 =
      (BlockProducer.produce_block specEx envNoBlock 100 100).1 ∧
    (BlockProducer.poll specEx (envAt 100) 100).1 =
      .ok (.SlotAlreadyProcessed 100) :=
  ⟨(C3_lps_advanced_before_production specEx envNoBlock (envAt 100) 0 100 rfl
      (by decide) (by decide) (by decide)).1,
   (C3_lps_advanced_before_production specEx envNoBlock (envAt 100) 0 100 rfl
      (by decide) (by decide) (by decide)).2.1,
   (C3_lps_advanced_before_production specEx envNoBlock (envAt 100) 0 100 rfl
      (by decide) (by decide) (by decide)).2.2 rfl⟩

/-- C1: whenever a poll's trace contains a publish call, the beacon node
produced a candidate, the safety predicate judged it non-slashable, and
the signer signed it — and the trace is exactly the pipeline
duties-query, produce, canonical-root, sign, publish, in that order, with
publish last; on every other path of `produce_block` no publish call
appears. -/
theorem C1_publish_only_after_produce_safe_sign (spec : ChainSpec) (env : Env)
    (lps : Nat) (b : BeaconBlock)
    (hpub : Call.publish b ∈ (BlockProducer.poll spec env lps).2.2) :
    ∃ s blk sig,
      env.clock = .slot s ∧
      env.is_block_production_slot (s / spec.epoch_length) s = .ok true ∧
      env.produce_beacon_block s = .ok (some blk) ∧
      BlockProducer.safe_to_produce blk = true ∧
      env.bls_sign (BlockProducer.proposal_root spec env blk) = some sig ∧
      b = { blk with signature := sig } ∧
      (BlockProducer.poll spec env lps).2.2 =
        [Call.duties (s / spec.epoch_length) s, Call.produceBlock s,
         Call.canonicalRoot { blk with signature := spec.empty_signature },
         Call.signCall (BlockProducer.proposal_root spec env blk),
         Call.publish b] := by
  rcases hc : env.clock with _ | _ | _ | s
  · simp [BlockProducer.poll, hc] at hpub
  · simp [BlockProducer.poll, hc] at hpub
  · simp [BlockProducer.poll, hc] at hpub
  · by_cases hlen : spec.epoch_length = 0
    · simp [BlockProducer.poll, hc, BlockProducer.checked_div, hlen] at hpub
    · by_cases hgt : s > lps
      · rcases ha : env.is_block_production_slot (s / spec.epoch_length) s
            with req | e
        · cases req
          · simp [BlockProducer.poll, hc, BlockProducer.checked_div, hlen,
              hgt, ha] at hpub
          · rcases hp : env.produce_beacon_block s with e | ob
            · simp [BlockProducer.poll, BlockProducer.produce_block, hc,
                BlockProducer.checked_div, hlen, hgt, ha, hp] at hpub
            · rcases ob with _ | blk
              · simp [BlockProducer.poll, BlockProducer.produce_block, hc,
                  BlockProducer.checked_div, hlen, hgt, ha, hp] at hpub
              · rcases hb : env.bls_sign (BlockProducer.proposal_root spec env blk)
                    with _ | sig
                · simp [BlockProducer.poll, BlockProducer.produce_block,
                    BlockProducer.sign_block, BlockProducer.safe_to_produce,
                    hc, BlockProducer.checked_div, hlen, hgt, ha, hp, hb] at hpub
                · have hbeq : b = { blk with signature := sig } := by
                    rcases hr : env.publish_beacon_block
                        { blk with signature := sig } with e2 | f <;>
                      simpa [BlockProducer.poll, BlockProducer.produce_block,
                        BlockProducer.sign_block, BlockProducer.safe_to_produce,
                        hc, BlockProducer.checked_div, hlen, hgt, ha, hp, hb,
                        hr] using hpub
                  subst hbeq
                  refine ⟨s, blk, sig, rfl, ha, hp, rfl, hb, rfl, ?_⟩
                  rcases hr : env.publish_beacon_block
                      { blk with signature := sig } with e2 | f <;>
                    simp [BlockProducer.poll, BlockProducer.produce_block,
                      BlockProducer.sign_block, BlockProducer.safe_to_produce,
                      hc, BlockProducer.checked_div, hlen, hgt, ha, hp, hb, hr]
        · cases e <;>
            simp [BlockProducer.poll, hc, BlockProducer.checked_div, hlen,
              hgt, ha] at hpub
      · simp [BlockProducer.poll, hc, BlockProducer.checked_div, hlen,
          hgt] at hpub

/-- C1 witness: the concrete production poll at slot 100 publishes, and
the theorem recovers the produced candidate, the safety verdict, the
signature, and the full pipeline-ordered trace. -/
theorem C1_publish_only_after_produce_safe_sign_witness :
    ∃ s blk sig,
      (envAt 100).clock = .slot s ∧
      (envAt 100).is_block_production_slot (s / specEx.epoch_length) s =
        .ok true ∧
      (envAt 100).produce_beacon_block s = .ok (some blk) ∧
      BlockProducer.safe_to_produce blk = true ∧
      (envAt 100).bls_sign (BlockProducer.proposal_root specEx (envAt 100) blk) =
        some sig ∧
      { blockEx with signature := 5 } = { blk with signature := sig } ∧
      (BlockProducer.poll specEx (envAt 100) BlockProducer.new).2.2 =
        [Call.duties (s / specEx.epoch_length) s, Call.produceBlock s,
         Call.canonicalRoot { blk with signature := specEx.empty_signature },
         Call.signCall (BlockProducer.proposal_root specEx (envAt 100) blk),
         Call.publish { blockEx with signature := 5 }] :=
  C1_publish_only_after_produce_safe_sign specEx (envAt 100) BlockProducer.new
    { blockEx with signature := 5 } (by decide)

/-- C2: for a producer polled from its initial state through any sequence
of polls whose successful clock readings are non-decreasing,
`last_processed_slot` is non-decreasing from each poll to the next and,
after any number of polls, is at most the most recently observed slot. -/
theorem C2_monotonicity (spec : ChainSpec) (envs : List Env)
    (hchain : List.Chain' (· ≤ ·) (readings envs)) :
    (∀ i, BlockProducer.lpsAfter spec (envs.take i) ≤
      BlockProducer.lpsAfter spec (envs.take (i + 1))) ∧
    (∀ i s, (readings (envs.take i)).getLast? = some s →
      BlockProducer.lpsAfter spec (envs.take i) ≤ s) := by
  constructor
  · intro i
    unfold BlockProducer.lpsAfter
    rw [List.take_succ, List.foldl_append]
    rcases h : envs[i]? with _ | e
    · simp
    · simp only [Option.toList]
      rw [List.foldl_cons, List.foldl_nil]
      exact BlockProducer.poll_step_mono spec e _
  · intro i s hs
    have hsub : List.Sublist (readings (envs.take i)) (readings envs) :=
      (List.take_sublist i envs).filterMap _
    have hchain2 : List.Chain' (· ≤ ·) (readings (envs.take i)) :=
      hchain.sublist hsub
    have hchain0 :
        List.Chain' (· ≤ ·) (BlockProducer.new :: readings (envs.take i)) :=
      List.chain'_cons'.mpr ⟨fun y _ => Nat.zero_le y, hchain2⟩
    exact BlockProducer.foldl_pollLps_le_getLast spec (envs.take i)
      BlockProducer.new hchain0 s hs

/-- C2 witness: along the concrete poll sequence at slots 99, 100, 100,
101 the state is non-decreasing between consecutive polls and after three
polls is at most the most recent reading, 100. -/
theorem C2_monotonicity_witness :
    BlockProducer.lpsAfter specEx
        ([envAt 99, envAt 100, envAt 100, envAt 101].take 1) ≤
      BlockProducer.lpsAfter specEx
        ([envAt 99, envAt 100, envAt 100, envAt 101].take 2) ∧
    BlockProducer.lpsAfter specEx
        ([envAt 99, envAt 100, envAt 100, envAt 101].take 3) ≤ 100 :=
  ⟨(C2_monotonicity specEx [envAt 99, envAt 100, envAt 100, envAt 101]
      (by show List.Chain' (· ≤ ·) [99, 100, 100, 101]; repeat constructor)).1 1,
   (C2_monotonicity specEx [envAt 99, envAt 100, envAt 100, envAt 101]
      (by show List.Chain' (· ≤ ·) [99, 100, 100, 101]; repeat constructor)).2
     3 100 (by decide)⟩

end Lighthouse
